import Mathlib

/-!
Verification development for the slack-tui core layer: a shallow embedding of
the channel/user directory cache (`message_handler.py`), the fuzzy matcher
(`autocomplete.py`), the VIP aggregator (`vip_listener.py`) and the recap
engine (`recap.py`), with theorems settling the behavioural claims of the
specification.

Modelling conventions:
* Python dicts used as caches become functions `String → Option _` with
  last-write-wins insertion (`dictInsert`).
* Remote calls through the `WebClient` become fields of a `WebClient`
  structure returning `Except ErrData _`; every remote round-trip issued by a
  handler function is additionally recorded in a `calls` trace inside
  `HandlerState`, so "no provider call occurs" is a statement about the trace.
* Raised exceptions become `Except` errors.  `RunError.perm` models
  `SlackPermissionError`, `RunError.key` models a Python `KeyError` from a
  missing mandatory dict key.  A caught-and-resumed exception resumes with the
  state from before the failing call (faithful: the source writes to its
  caches only after a remote call has succeeded).
* Slack timestamps are decimal strings compared through `float(...)` in the
  source; they are modelled as rationals (`Rat`), on which comparison of the
  finite decimal timestamp values agrees with Python float comparison, and
  serialized with `toString` where the source uses the raw string.
* Python's stable `list.sort(key=..., reverse=True)` becomes
  `List.mergeSort` with a boolean "greater or equal on the key" relation,
  which is stable in the same sense.
-/

/-! ## Small Python-semantics helpers -/

/-- Dict update: last write wins, all other keys unchanged. -/
def dictInsert {β : Type} (m : String → Option β) (k : String) (v : β) :
    String → Option β :=
  fun k' => if k' = k then some v else m k'

/-- Python `s.lstrip(c)`: drop every leading occurrence of `c`. -/
def pyLstrip (s : String) (c : Char) : String :=
  String.mk (s.toList.dropWhile (fun x => x = c))

/-- Python `s.strip(c)`: drop every leading and trailing occurrence of `c`. -/
def pyStrip (s : String) (c : Char) : String :=
  String.mk (((s.toList.dropWhile (fun x => x = c)).reverse.dropWhile
    (fun x => x = c)).reverse)

/-- Python `s.startswith(pre)`. -/
def pyStartsWith (s pre : String) : Bool :=
  pre.toList.isPrefixOf s.toList

/-- Python `needle in hay` on strings: contiguous substring test. -/
def isSubstr (needle hay : List Char) : Bool :=
  match hay with
  | [] => needle.isEmpty
  | _ :: t => needle.isPrefixOf hay || isSubstr needle t

/-- Python `needle in hay` lifted to `String`. -/
def strIn (needle hay : String) : Bool :=
  isSubstr needle.toList hay.toList

/-! ## MD5 (`hashlib.md5`), over `Nat` with explicit reduction mod 2^32.

`generate_message_id` truncates `hashlib.md5(f"{channel}:{ts}".encode())
.hexdigest()` to 8 characters; the full algorithm is embedded so that the
digest is a genuine executable function of the input string. -/

/-- UTF-8 encoding of one scalar value, as byte values. -/
def charUtf8 (c : Char) : List Nat :=
  let n := c.toNat
  if n < 128 then [n]
  else if n < 2048 then [192 + n / 64, 128 + n % 64]
  else if n < 65536 then
    [224 + n / 4096, 128 + (n / 64) % 64, 128 + n % 64]
  else
    [240 + n / 262144, 128 + (n / 4096) % 64, 128 + (n / 64) % 64,
      128 + n % 64]

/-- UTF-8 encoding of a string (Python `str.encode()`), as byte values. -/
def utf8Bytes (s : String) : List Nat :=
  s.toList.flatMap charUtf8

/-- 32-bit left rotation (inputs below `2 ^ 32`). -/
def rotl32 (x n : Nat) : Nat :=
  ((x <<< n) % 4294967296) ||| (x >>> (32 - n))

/-- Bitwise complement on 32-bit values. -/
def not32 (x : Nat) : Nat := x ^^^ 4294967295

/-- The 64 MD5 sine-derived round constants. -/
def md5K : List Nat :=
  [0xd76aa478, 0xe8c7b756, 0x242070db, 0xc1bdceee,
   0xf57c0faf, 0x4787c62a, 0xa8304613, 0xfd469501,
   0x698098d8, 0x8b44f7af, 0xffff5bb1, 0x895cd7be,
   0x6b901122, 0xfd987193, 0xa679438e, 0x49b40821,
   0xf61e2562, 0xc040b340, 0x265e5a51, 0xe9b6c7aa,
   0xd62f105d, 0x02441453, 0xd8a1e681, 0xe7d3fbc8,
   0x21e1cde6, 0xc33707d6, 0xf4d50d87, 0x455a14ed,
   0xa9e3e905, 0xfcefa3f8, 0x676f02d9, 0x8d2a4c8a,
   0xfffa3942, 0x8771f681, 0x6d9d6122, 0xfde5380c,
   0xa4beea44, 0x4bdecfa9, 0xf6bb4b60, 0xbebfbc70,
   0x289b7ec6, 0xeaa127fa, 0xd4ef3085, 0x04881d05,
   0xd9d4d039, 0xe6db99e5, 0x1fa27cf8, 0xc4ac5665,
   0xf4292244, 0x432aff97, 0xab9423a7, 0xfc93a039,
   0x655b59c3, 0x8f0ccc92, 0xffeff47d, 0x85845dd1,
   0x6fa87e4f, 0xfe2ce6e0, 0xa3014314, 0x4e0811a1,
   0xf7537e82, 0xbd3af235, 0x2ad7d2bb, 0xeb86d391]

/-- The 64 MD5 per-round left-rotation amounts. -/
def md5S : List Nat :=
  [7, 12, 17, 22, 7, 12, 17, 22, 7, 12, 17, 22, 7, 12, 17, 22,
   5, 9, 14, 20, 5, 9, 14, 20, 5, 9, 14, 20, 5, 9, 14, 20,
   4, 11, 16, 23, 4, 11, 16, 23, 4, 11, 16, 23, 4, 11, 16, 23,
   6, 10, 15, 21, 6, 10, 15, 21, 6, 10, 15, 21, 6, 10, 15, 21]

/-- MD5 round mixing function, by round index. -/
def md5F (i b c d : Nat) : Nat :=
  if i < 16 then (b &&& c) ||| (not32 b &&& d)
  else if i < 32 then (d &&& b) ||| (not32 d &&& c)
  else if i < 48 then b ^^^ c ^^^ d
  else c ^^^ (b ||| not32 d)

/-- MD5 message-word schedule, by round index. -/
def md5g (i : Nat) : Nat :=
  if i < 16 then i
  else if i < 32 then (5 * i + 1) % 16
  else if i < 48 then (3 * i + 5) % 16
  else (7 * i) % 16

/-- One MD5 round on the running `(a, b, c, d)` state. -/
def md5step (M : List Nat) (st : Nat × Nat × Nat × Nat) (i : Nat) :
    Nat × Nat × Nat × Nat :=
  let a := st.1
  let b := st.2.1
  let c := st.2.2.1
  let d := st.2.2.2
  let f := (md5F i b c d + a + md5K.getD i 0 + M.getD (md5g i) 0) % 4294967296
  (d, (b + rotl32 f (md5S.getD i 0)) % 4294967296, b, c)

/-- Process one 64-byte chunk. -/
def md5chunk (st : Nat × Nat × Nat × Nat) (chunk : List Nat) :
    Nat × Nat × Nat × Nat :=
  let M := (List.range 16).map fun g =>
    chunk.getD (4 * g) 0 + 256 * chunk.getD (4 * g + 1) 0 +
      65536 * chunk.getD (4 * g + 2) 0 + 16777216 * chunk.getD (4 * g + 3) 0
  let r := (List.range 64).foldl (md5step M) st
  ((st.1 + r.1) % 4294967296, (st.2.1 + r.2.1) % 4294967296,
   (st.2.2.1 + r.2.2.1) % 4294967296, (st.2.2.2 + r.2.2.2) % 4294967296)

/-- MD5 padding: `0x80`, zeros to 56 mod 64, then the bit length as 8
little-endian bytes (mod `2 ^ 64`). -/
def md5pad (msg : List Nat) : List Nat :=
  let len := msg.length
  let z := (64 + 56 - (len + 1) % 64) % 64
  msg ++ [128] ++ List.replicate z 0 ++
    (List.range 8).map fun i => (len * 8 % 18446744073709551616) >>> (8 * i) % 256

/-- Split a byte list into 64-byte chunks. -/
def chunks64 (l : List Nat) : List (List Nat) :=
  if h : l = [] then []
  else l.take 64 :: chunks64 (l.drop 64)
termination_by l.length
decreasing_by
  have hp : 0 < l.length := List.length_pos.mpr h
  simp only [List.length_drop]
  omega

/-- Serialize a 32-bit word as 4 little-endian bytes. -/
def wordLE (w : Nat) : List Nat :=
  [w % 256, (w >>> 8) % 256, (w >>> 16) % 256, (w >>> 24) % 256]

/-- MD5 digest of a byte list: 16 bytes. -/
def md5bytes (msg : List Nat) : List Nat :=
  let r := (chunks64 (md5pad msg)).foldl md5chunk
    (0x67452301, 0xefcdab89, 0x98badcfe, 0x10325476)
  wordLE r.1 ++ wordLE r.2.1 ++ wordLE r.2.2.1 ++ wordLE r.2.2.2

/-- Two lowercase hex characters for one byte value. -/
def byteHex (b : Nat) : List Char :=
  [Nat.digitChar ((b >>> 4) % 16), Nat.digitChar (b % 16)]

/-- `hashlib.md5(s.encode()).hexdigest()`, as a character list. -/
def md5hex (s : String) : List Char :=
  (md5bytes (utf8Bytes s)).flatMap byteHex

/-! ## Data model (message_handler.py, settings.py) -/

/-- A channel record as returned by the provider.  `name` is optional (the
source guards `if "name" in channel`); `topic` holds the optional
`topic.value` field; `is_member` models the truthiness of
`channel.get('is_member')`. -/
structure Channel where
  id : String
  name : Option String
  topic : Option String
  is_member : Bool
deriving DecidableEq, Repr

/-- A user record as returned by the provider.  `name` is mandatory in the
source (`user["name"]`); `real_name` models `user.get('real_name', ...)`;
`deleted` models the truthiness of `user.get('deleted')`. -/
structure User where
  id : String
  name : String
  real_name : Option String
  deleted : Bool
deriving DecidableEq, Repr

/-- A message record.  Slack timestamps are decimal strings; the value is
modelled as a rational (see the header note).  `msg_id`, `channel_id` and
`channel_name` are the keys added by the handler / the VIP listener. -/
structure Msg where
  ts : Rat
  user : Option String
  text : String
  reply_count : Nat
  msg_id : Option String
  channel_id : Option String
  channel_name : Option String
deriving DecidableEq, Repr

/-- The serialization of a timestamp used where the source reads the raw
`msg["ts"]` string. -/
def ratTs (q : Rat) : String := toString q

/-- The error payload of a `SlackApiError` response
(`getattr(e.response, "data", {}) or {}` with `.get` lookups). -/
structure ErrData where
  error : Option String
  needed : Option String
  provided : Option String
deriving DecidableEq, Repr

/-- `SlackPermissionError` (message_handler.py lines 10-26). -/
structure SlackPermissionError where
  method : String
  error : String
  needed : Option String
  provided : Option String
deriving DecidableEq, Repr

/-- Construction of a `SlackPermissionError` from a failed call, applying the
`data.get("error", "unknown_error")` default. -/
def mkPermError (method : String) (d : ErrData) : SlackPermissionError :=
  ⟨method, d.error.getD "unknown_error", d.needed, d.provided⟩

/-- A raised Python exception: a `SlackPermissionError`, or a `KeyError` from
reading a mandatory dict key that is absent. -/
inductive RunError where
  | perm (e : SlackPermissionError)
  | key (k : String)
deriving DecidableEq, Repr

/-- One remote round-trip, as recorded in the call trace. -/
inductive ApiCall where
  | conversationsList (types : String)
  | conversationsInfo (channel : String)
  | usersList
  | usersInfo (user : String)
  | conversationsHistory (channel : String) (limit : Nat)
  | searchMessages (query : String) (count : Nat)
deriving DecidableEq, Repr

/-- The remote provider (`slack_sdk.WebClient`), as a record of responses.
Each field either returns the payload the handler reads on success or the
error data attached to a `SlackApiError`. -/
structure WebClient where
  conversations_list : (types : String) → (exclude_archived : Bool) →
    (limit : Nat) → Except ErrData (List Channel)
  conversations_info : (channel : String) → Except ErrData Channel
  users_list : Unit → Except ErrData (List User)
  users_info : (user : String) → Except ErrData User
  conversations_history : (channel : String) → (limit : Nat) →
    (latest : Option String) → Except ErrData (List Msg)
  search_messages : (query : String) → (count : Nat) →
    Except ErrData (List Msg)

/-- The `MessageHandler` caches, plus the instrumentation trace of remote
calls issued so far. -/
structure HandlerState where
  message_cache : String → Option (String × String)
  channel_cache : String → Option Channel
  user_cache : String → Option User
  calls : List ApiCall

/-- Append one remote round-trip to the trace. -/
def HandlerState.logCall (st : HandlerState) (c : ApiCall) : HandlerState :=
  { st with calls := st.calls ++ [c] }

/-- A fresh `MessageHandler.__init__` state: empty caches, no calls. -/
def initState : HandlerState :=
  ⟨fun _ => none, fun _ => none, fun _ => none, []⟩

/-- A persisted VIP registry entry (`settings.vip_users` element). -/
structure VipEntry where
  id : String
  username : String
deriving DecidableEq, Repr

/-- The part of `Settings` the core reads: the VIP registry. -/
structure Settings where
  vip_users : List VipEntry
deriving DecidableEq, Repr

/-- `Settings.get_vip_users`: returns the registry list. -/
def Settings.get_vip_users (s : Settings) : List VipEntry := s.vip_users

/-! ## MessageHandler operations (message_handler.py) -/

/-- The 8-character id value of `generate_message_id`: the first 8 characters
of the MD5 hexdigest of `f"{channel}:{ts}"`. -/
def msgHash (channel ts : String) : String :=
  String.mk ((md5hex (channel ++ ":" ++ ts)).take 8)

/-- `MessageHandler.generate_message_id`: compute the 8-char id and cache the
`(channel, ts)` pair under it in `message_cache`. -/
def generate_message_id (st : HandlerState) (channel ts : String) :
    String × HandlerState :=
  let msg_hash := msgHash channel ts
  (msg_hash,
   { st with message_cache := dictInsert st.message_cache msg_hash (channel, ts) })

/-- The per-channel cache writes of `get_channels`: key by `id`, and by
`name` when present. -/
def cacheChannel (m : String → Option Channel) (channel : Channel) :
    String → Option Channel :=
  let m := dictInsert m channel.id channel
  match channel.name with
  | some n => dictInsert m n channel
  | none => m

/-- `MessageHandler.get_channels`: list conversations, cache each returned
record under its id and (when present) its name, return the full listing;
raise `SlackPermissionError` when the provider rejects the call. -/
def get_channels (client : WebClient) (st : HandlerState)
    (types : String := "public_channel") :
    Except RunError (List Channel × HandlerState) :=
  let st := st.logCall (.conversationsList types)
  match client.conversations_list types true 1000 with
  | .ok channels =>
      .ok (channels,
        { st with channel_cache := channels.foldl cacheChannel st.channel_cache })
  | .error d => .error (.perm (mkPermError "conversations.list" d))

/-- `MessageHandler.get_channel`: serve from cache, else a single-channel
lookup; every provider failure raises `SlackPermissionError`. -/
def get_channel (client : WebClient) (st : HandlerState) (channel_id : String) :
    Except RunError (Option Channel × HandlerState) :=
  match st.channel_cache channel_id with
  | some channel => .ok (some channel, st)
  | none =>
      let st := st.logCall (.conversationsInfo channel_id)
      match client.conversations_info channel_id with
      | .ok channel =>
          .ok (some channel,
            { st with channel_cache := dictInsert st.channel_cache channel_id channel })
      | .error d => .error (.perm (mkPermError "conversations.info" d))

/-- `MessageHandler.resolve_channel`: strip leading `#`; return ID-prefixed
identifiers unchecked; else cache, then one forced `get_channels` refresh
(whose failure propagates), then cache again; `none` if still unresolved. -/
def resolve_channel (client : WebClient) (st : HandlerState)
    (identifier : String) (types : String := "public_channel") :
    Except RunError (Option String × HandlerState) :=
  let identifier := pyLstrip identifier '#'
  if pyStartsWith identifier "C" || pyStartsWith identifier "D" ||
      pyStartsWith identifier "G" then
    .ok (some identifier, st)
  else
    match st.channel_cache identifier with
    | some channel => .ok (some channel.id, st)
    | none =>
        match get_channels client st types with
        | .error e => .error e
        | .ok r =>
            let st := r.2
            match st.channel_cache identifier with
            | some channel => .ok (some channel.id, st)
            | none => .ok (none, st)

/-- The per-user cache writes of `get_users`: key by `id` and by `name`. -/
def cacheUser (m : String → Option User) (user : User) :
    String → Option User :=
  dictInsert (dictInsert m user.id user) user.name user

/-- `MessageHandler.get_users`: list users, cache each under id and name;
provider failure raises `SlackPermissionError`. -/
def get_users (client : WebClient) (st : HandlerState) :
    Except RunError (List User × HandlerState) :=
  let st := st.logCall .usersList
  match client.users_list () with
  | .ok users =>
      .ok (users, { st with user_cache := users.foldl cacheUser st.user_cache })
  | .error d => .error (.perm (mkPermError "users.list" d))

/-- `MessageHandler.resolve_user`: strip leading `@`; return `U`-prefixed
identifiers unchecked; else cache, then one forced `get_users` refresh (whose
failure propagates), then cache again; `none` if still unresolved. -/
def resolve_user (client : WebClient) (st : HandlerState)
    (identifier : String) :
    Except RunError (Option String × HandlerState) :=
  let identifier := pyLstrip identifier '@'
  if pyStartsWith identifier "U" then
    .ok (some identifier, st)
  else
    match st.user_cache identifier with
    | some user => .ok (some user.id, st)
    | none =>
        match get_users client st with
        | .error e => .error e
        | .ok r =>
            let st := r.2
            match st.user_cache identifier with
            | some user => .ok (some user.id, st)
            | none => .ok (none, st)

/-- The annotation `msg["msg_id"] = self.generate_message_id(channel, ts)`
applied to each fetched message, threading the handler state. -/
def annotateMsgs (channel_id : String) (messages : List Msg)
    (st : HandlerState) : List Msg × HandlerState :=
  messages.foldl
    (fun acc msg =>
      let r := generate_message_id acc.2 channel_id (ratTs msg.ts)
      (acc.1 ++ [{ msg with msg_id := some r.1 }], r.2))
    (([] : List Msg), st)

/-- `MessageHandler.get_messages`: fetch channel history, annotate each
message with its `msg_id`; provider failure raises `SlackPermissionError`. -/
def get_messages (client : WebClient) (st : HandlerState) (channel_id : String)
    (limit : Nat := 20) (latest : Option String := none) :
    Except RunError (List Msg × HandlerState) :=
  let st := st.logCall (.conversationsHistory channel_id limit)
  match client.conversations_history channel_id limit latest with
  | .ok messages => .ok (annotateMsgs channel_id messages st)
  | .error d => .error (.perm (mkPermError "conversations.history" d))

/-- `MessageHandler.search_messages`: search across channels, annotating
matches that carry a non-empty channel id; a provider failure degrades to an
empty result instead of raising. -/
def search_messages (client : WebClient) (st : HandlerState) (query : String)
    (count : Nat := 20) : List Msg × HandlerState :=
  let st := st.logCall (.searchMessages query count)
  match client.search_messages query count with
  | .ok found =>
      found.foldl
        (fun acc msg =>
          let channel_id := msg.channel_id.getD ""
          if channel_id ≠ "" then
            let r := generate_message_id acc.2 channel_id (ratTs msg.ts)
            (acc.1 ++ [{ msg with msg_id := some r.1 }], r.2)
          else
            (acc.1 ++ [msg], acc.2))
        (([] : List Msg), st)
  | .error _ => ([], st)

/-! ## Fuzzy matcher (autocomplete.py) -/

/-- Channel candidates for `fuzzy_match_channels`: the `name` key is read
unconditionally by the matcher. -/
structure AcChannel where
  name : String
  topic : Option String
deriving DecidableEq, Repr

/-- User candidates for `fuzzy_match_users`: `name` is read unconditionally,
`real_name` via `.get('real_name', '')`, `deleted` via truthiness of
`.get('deleted')`. -/
structure AcUser where
  name : String
  real_name : Option String
  deleted : Bool
deriving DecidableEq, Repr

/-- The tier score assigned to one channel name (already lower-cased) against
the processed query, `none` meaning excluded. -/
def channelScore (query name : String) : Option Nat :=
  if name = query then some 100
  else if pyStartsWith name query then some 90
  else if strIn query name then some 70
  else if query.toList.all (fun c => name.toList.contains c) then some 50
  else none

/-- Descending comparison on the score component; ties are both-related, so
`mergeSort` keeps their input order, as Python's stable `sort` does. -/
def scoreDesc {α : Type} (a b : α × Nat) : Bool := decide (b.2 ≤ a.2)

/-- `fuzzy_match_channels`: lower-case the query and strip `#`, score every
channel name, keep scored ones in input order, then stable-sort by score
descending. -/
def fuzzy_match_channels (query : String) (channels : List AcChannel) :
    List (AcChannel × Nat) :=
  let query := pyStrip query.toLower '#'
  let found := channels.filterMap fun channel =>
    (channelScore query channel.name.toLower).map fun s => (channel, s)
  found.mergeSort scoreDesc

/-- The tier score assigned to one (non-deleted) user against the processed
query, `none` meaning excluded. -/
def userScore (query : String) (user : AcUser) : Option Nat :=
  let username := user.name.toLower
  let real_name := (user.real_name.getD "").toLower
  if username = query then some 100
  else if real_name = query then some 95
  else if pyStartsWith username query then some 90
  else if strIn query username || strIn query real_name then some 70
  else none

/-- `fuzzy_match_users`: lower-case the query and strip `@`, skip deleted
users, score the rest, then stable-sort by score descending. -/
def fuzzy_match_users (query : String) (users : List AcUser) :
    List (AcUser × Nat) :=
  let query := pyStrip query.toLower '@'
  let found := users.filterMap fun user =>
    if user.deleted then none
    else (userScore query user).map fun s => (user, s)
  found.mergeSort scoreDesc

/-! ## VIP listener (vip_listener.py) -/

/-- `msg.get('user') in vip_user_ids`: `None` is never in a list of ids. -/
def isVipMsg (vip_user_ids : List String) (msg : Msg) : Bool :=
  match msg.user with
  | some u => vip_user_ids.contains u
  | none => false

/-- Descending comparison on `float(x.get('ts', 0))`. -/
def tsDesc (a b : Msg) : Bool := decide (b.ts ≤ a.ts)

/-- The per-channel gathering loop of `get_vip_messages`: skip non-member
channels, fetch each member channel's recent messages, retain VIP-sent ones
annotated with the channel id and name.  Reading `channel['name']` raises a
`KeyError` when the key is absent, but only when at least one message is
retained (the annotation runs per retained message). -/
def vipGather (client : WebClient) (st : HandlerState)
    (channels : List Channel) (vip_user_ids : List String)
    (limit_per_channel : Nat) :
    Except RunError (List Msg × HandlerState) :=
  match channels with
  | [] => .ok ([], st)
  | channel :: rest =>
      if !channel.is_member then
        vipGather client st rest vip_user_ids limit_per_channel
      else
        match get_messages client st channel.id limit_per_channel none with
        | .error e => .error e
        | .ok r =>
            let messages := r.1
            let st := r.2
            let retained := messages.filter (isVipMsg vip_user_ids)
            if retained.isEmpty then
              vipGather client st rest vip_user_ids limit_per_channel
            else
              match channel.name with
              | none => .error (.key "name")
              | some cname =>
                  let annotated := retained.map fun m =>
                    { m with channel_id := some channel.id,
                             channel_name := some cname }
                  match vipGather client st rest vip_user_ids limit_per_channel with
                  | .error e => .error e
                  | .ok r2 => .ok (annotated ++ r2.1, r2.2)

/-- `VIPListener.get_vip_messages`: return `[]` at once when the VIP registry
is empty (no remote call); otherwise list channels, gather VIP messages from
member channels, and stable-sort the merged list by timestamp descending. -/
def get_vip_messages (client : WebClient) (st : HandlerState)
    (settings : Settings) (limit_per_channel : Nat := 50) :
    Except RunError (List Msg × HandlerState) :=
  let vip_users := settings.get_vip_users
  let vip_user_ids := vip_users.map (·.id)
  if vip_user_ids.isEmpty then .ok ([], st)
  else
    match get_channels client st "public_channel" with
    | .error e => .error e
    | .ok r =>
        match vipGather client r.2 r.1 vip_user_ids limit_per_channel with
        | .error e => .error e
        | .ok r2 =>
            .ok (r2.1.mergeSort tsDesc, r2.2)

/-! ## Recap engine (recap.py) -/

/-- A recap record (`RecapManager._create_recap` result). -/
structure Recap where
  channel_id : String
  channel_name : String
  channel_topic : String
  total_messages : Nat
  participants : Nat
  threads : Nat
  latest_timestamp : Rat
  preview_messages : List Msg
deriving DecidableEq, Repr

/-- `RecapManager` session state: the generated list and the cursor. -/
structure RecapState where
  recaps : List Recap
  current_index : Int
deriving DecidableEq, Repr

/-- `max(float(msg['ts']) for msg in messages)`; the `[]` case is unreachable
behind the caller's non-empty guard. -/
def maxTs (messages : List Msg) : Rat :=
  match messages with
  | [] => 0
  | m :: rest => rest.foldl (fun a x => max a x.ts) m.ts

/-- Number of distinct truthy senders:
`len(set(msg.get('user') for msg in messages if msg.get('user')))`. -/
def participantCount (messages : List Msg) : Nat :=
  ((messages.filterMap (·.user)).filter (fun u => u ≠ "")).dedup.length

/-- `RecapManager._create_recap`; reading `channel['name']` raises `KeyError`
when absent. -/
def create_recap (channel : Channel) (messages : List Msg) :
    Except RunError Recap :=
  match channel.name with
  | none => .error (.key "name")
  | some cname =>
      .ok { channel_id := channel.id,
            channel_name := cname,
            channel_topic := channel.topic.getD "",
            total_messages := messages.length,
            participants := participantCount messages,
            threads := messages.countP fun m => decide (0 < m.reply_count),
            latest_timestamp := maxTs messages,
            preview_messages := messages.take 5 }

/-- Descending comparison on `latest_timestamp`. -/
def recapDesc (a b : Recap) : Bool := decide (b.latest_timestamp ≤ a.latest_timestamp)

/-- The guarded per-channel body of `generate_recaps`: any exception from the
message fetch or the recap construction is swallowed (`except Exception:
continue`), resuming with the pre-call state; a channel with no messages is
skipped. -/
def recapStep (client : WebClient) (messages_per_channel : Nat)
    (acc : List Recap × HandlerState) (channel : Channel) :
    List Recap × HandlerState :=
  match get_messages client acc.2 channel.id messages_per_channel none with
  | .error _ => acc
  | .ok r =>
      let messages := r.1
      let st := r.2
      if messages.isEmpty then (acc.1, st)
      else
        match create_recap channel messages with
        | .error _ => (acc.1, st)
        | .ok recap => (acc.1 ++ [recap], st)

/-- `RecapManager.generate_recaps`: list channels (a failure here propagates),
keep member channels, build one recap per channel that yields messages —
silently dropping channels whose fetch raises — sort by latest activity
descending, and reset the cursor to 0. -/
def generate_recaps (client : WebClient) (st : HandlerState)
    (types : String := "public_channel") (messages_per_channel : Nat := 10) :
    Except RunError (List Recap × HandlerState × RecapState) :=
  match get_channels client st types with
  | .error e => .error e
  | .ok r =>
      let member_channels := r.1.filter (·.is_member)
      let r2 := member_channels.foldl (recapStep client messages_per_channel) ([], r.2)
      let recaps := r2.1.mergeSort recapDesc
      .ok (recaps, r2.2, ⟨recaps, 0⟩)

/-- Python list indexing `l[i]` including negative indices; `none` stands for
an `IndexError`. -/
def pyIndex {α : Type} (l : List α) (i : Int) : Option α :=
  if 0 ≤ i then l.get? i.toNat
  else
    let j := (l.length : Int) + i
    if 0 ≤ j then l.get? j.toNat else none

/-- `RecapManager.get_current_recap`. -/
def get_current_recap (s : RecapState) : Option Recap :=
  if s.recaps.isEmpty || decide ((s.recaps.length : Int) ≤ s.current_index) then none
  else pyIndex s.recaps s.current_index

/-- `RecapManager.next_recap`: advance the cursor with wraparound (Python `%`
on a positive modulus is `Int.emod`), then return the current recap. -/
def next_recap (s : RecapState) : Option Recap × RecapState :=
  if s.recaps.isEmpty then (none, s)
  else
    let s := { s with current_index := (s.current_index + 1) % (s.recaps.length : Int) }
    (get_current_recap s, s)

/-- `RecapManager.previous_recap`: retreat the cursor with wraparound, then
return the current recap. -/
def previous_recap (s : RecapState) : Option Recap × RecapState :=
  if s.recaps.isEmpty then (none, s)
  else
    let s := { s with current_index := (s.current_index - 1) % (s.recaps.length : Int) }
    (get_current_recap s, s)

/-! ## Derived definitions used in theorem statements -/

/-- The key-hit predicate of the dual-keyed channel cache: a record writes
key `k` when `k` is its id, or its name when present. -/
def hitsKey (k : String) (c : Channel) : Bool :=
  decide (k = c.id) || decide (c.name = some k)

/-- The msg-id annotation applied per message; its value depends only on the
channel id and the timestamp. -/
def annot (channel_id : String) (m : Msg) : Msg :=
  { m with msg_id := some (msgHash channel_id (ratTs m.ts)) }

/-- The sixteen lowercase hexadecimal digits. -/
def hexDigitChars : List Char := "0123456789abcdef".toList

/-- The per-channel outcome of `generate_recaps`: `none` when the history
fetch raises (exception swallowed) or returns no messages or the recap
construction raises, otherwise the recap built from the annotated messages.
A channel is in the generated list exactly when this is `some`. -/
def recapOf (client : WebClient) (messages_per_channel : Nat)
    (channel : Channel) : Option Recap :=
  match client.conversations_history channel.id messages_per_channel none with
  | .error _ => none
  | .ok ms =>
      if ms.isEmpty then none
      else
        match create_recap channel (ms.map (annot channel.id)) with
        | .error _ => none
        | .ok recap => some recap

/-! ## Concrete fixtures for witnesses and counterexamples -/

/-- Error payload of a scope rejection. -/
def errData0 : ErrData := ⟨some "missing_scope", none, none⟩

/-- Error payload of a not-found report. -/
def errNotFound : ErrData := ⟨some "channel_not_found", none, none⟩

/-- A provider that rejects every call. -/
def errClient : WebClient :=
  ⟨fun _ _ _ => .error errData0, fun _ => .error errData0,
   fun _ => .error errData0, fun _ => .error errData0,
   fun _ _ _ => .error errData0, fun _ _ => .error errData0⟩

/-- A provider whose single-channel lookup reports not-found. -/
def notFoundClient : WebClient :=
  ⟨fun _ _ _ => .error errData0, fun _ => .error errNotFound,
   fun _ => .error errData0, fun _ => .error errData0,
   fun _ _ _ => .error errData0, fun _ _ => .error errData0⟩

/-- A channel record and a provider whose single-channel lookup succeeds. -/
def chan9 : Channel := ⟨"C9", some "nine", none, true⟩

def infoClient : WebClient :=
  ⟨fun _ _ _ => .error errData0, fun _ => .ok chan9,
   fun _ => .error errData0, fun _ => .error errData0,
   fun _ _ _ => .error errData0, fun _ _ => .error errData0⟩

/-- A handler state whose channel cache already holds `chan9`. -/
def st9 : HandlerState :=
  { initState with
    channel_cache := dictInsert initState.channel_cache "C9" chan9 }

/-- A handler state whose channel cache holds `chan9` under its name key
"nine" (an identifier with no ID prefix). -/
def stNine : HandlerState :=
  { initState with
    channel_cache := dictInsert initState.channel_cache "nine" chan9 }

/-- A user record, and a handler state caching it under its username. -/
def userA : User := ⟨"U5", "alice", none, false⟩

def stAlice : HandlerState :=
  { initState with
    user_cache := dictInsert initState.user_cache "alice" userA }

/-- A provider with empty directory listings and failing message calls. -/
def emptyListClient : WebClient :=
  ⟨fun _ _ _ => .ok [], fun _ => .error errNotFound,
   fun _ => .ok [], fun _ => .error errData0,
   fun _ _ _ => .error errData0, fun _ _ => .error errData0⟩

/-- VIP fixtures: three VIP messages with timestamps 100.0, 300.5, 300.5
from three different member channels (spec §8, property 4). -/
def vipChan1 : Channel := ⟨"C1", some "general1", none, true⟩

def vipChan2 : Channel := ⟨"C2", some "general2", none, true⟩

def vipChan3 : Channel := ⟨"C3", some "general3", none, true⟩

/-- The timestamp 100.0 of the spec example, as a rational literal. -/
def ts100 : Rat := ⟨100, 1, by decide, by decide⟩

/-- The tied timestamp 300.5 of the spec example, as a rational literal. -/
def tsTie : Rat := ⟨601, 2, by decide, by decide⟩

def vipMsg1 : Msg := ⟨ts100, some "U1", "a", 0, none, none, none⟩

def vipMsg2 : Msg := ⟨tsTie, some "U1", "b", 0, none, none, none⟩

def vipMsg3 : Msg := ⟨tsTie, some "U1", "c", 0, none, none, none⟩

def vipClient : WebClient :=
  ⟨fun _ _ _ => .ok [vipChan1, vipChan2, vipChan3],
   fun _ => .error errNotFound,
   fun _ => .ok [], fun _ => .error errData0,
   fun cid _ _ =>
     if cid = "C1" then .ok [vipMsg1]
     else if cid = "C2" then .ok [vipMsg2]
     else .ok [vipMsg3],
   fun _ _ => .error errData0⟩

def vipSettings : Settings := ⟨[⟨"U1", "alice"⟩]⟩

/-- The handler state after the channel listing of the VIP witness run. -/
def vipSt1 : HandlerState :=
  match get_channels vipClient initState "public_channel" with
  | .ok r => r.2
  | .error _ => initState

/-- The gathered (pre-sort) VIP messages of the witness run. -/
def vipGathered : List Msg :=
  match vipGather vipClient vipSt1 [vipChan1, vipChan2, vipChan3] ["U1"] 50 with
  | .ok r => r.1
  | .error _ => []

/-- The final handler state of the VIP witness run. -/
def vipSt2 : HandlerState :=
  match vipGather vipClient vipSt1 [vipChan1, vipChan2, vipChan3] ["U1"] 50 with
  | .ok r => r.2
  | .error _ => initState

/-- Recap-cursor fixtures: a populated three-recap session at index 0. -/
def recapA : Recap := ⟨"CA", "alpha", "", 1, 1, 0, 3, []⟩

def recapB : Recap := ⟨"CB", "beta", "", 1, 1, 0, 2, []⟩

def recapC : Recap := ⟨"CC", "gamma", "", 1, 1, 0, 1, []⟩

def recapsW : List Recap := [recapA, recapB, recapC]

def recapStateW : RecapState := ⟨recapsW, 0⟩

/-- Dual-keyed-cache fixtures: two channels sharing the name "dup". -/
def dupChan1 : Channel := ⟨"C1", some "dup", none, true⟩

def dupChan2 : Channel := ⟨"C2", some "dup", none, false⟩

def dupClient : WebClient :=
  ⟨fun _ _ _ => .ok [dupChan1, dupChan2], fun _ => .error errNotFound,
   fun _ => .ok [], fun _ => .error errData0,
   fun _ _ _ => .error errData0, fun _ _ => .error errData0⟩

/-- The handler state after the dual-keyed-cache witness refresh. -/
def dupSt : HandlerState :=
  match get_channels dupClient initState "public_channel" with
  | .ok r => r.2
  | .error _ => initState

/-- Recap-generation fixtures: member channel `CA` whose fetch fails, member
channel `CB` with one message, non-member channel `CC`. -/
def rgChanA : Channel := ⟨"CA", some "alpha", none, true⟩

def rgChanB : Channel := ⟨"CB", some "beta", none, true⟩

def rgChanC : Channel := ⟨"CC", some "gamma", none, false⟩

def rgMsg : Msg := ⟨7, some "U2", "hello", 2, none, none, none⟩

def rgClient : WebClient :=
  ⟨fun _ _ _ => .ok [rgChanA, rgChanB, rgChanC], fun _ => .error errNotFound,
   fun _ => .ok [], fun _ => .error errData0,
   fun cid _ _ => if cid = "CB" then .ok [rgMsg] else .error errData0,
   fun _ _ => .error errData0⟩

/-- The empty VIP registry. -/
def emptySettings : Settings := ⟨[]⟩

/-! ## General lemmas -/

theorem scoreDesc_trans {α : Type} (a b c : α × Nat) :
    scoreDesc a b → scoreDesc b c → scoreDesc a c := by
  simp only [scoreDesc, decide_eq_true_eq]
  omega

theorem scoreDesc_total {α : Type} (a b : α × Nat) :
    scoreDesc a b || scoreDesc b a := by
  simp only [scoreDesc, Bool.or_eq_true, decide_eq_true_eq]
  omega

theorem tsDesc_trans (a b c : Msg) : tsDesc a b → tsDesc b c → tsDesc a c := by
  simp only [tsDesc, decide_eq_true_eq]
  intro h1 h2
  exact le_trans h2 h1

theorem tsDesc_total (a b : Msg) : tsDesc a b || tsDesc b a := by
  simp only [tsDesc, Bool.or_eq_true, decide_eq_true_eq]
  exact le_total b.ts a.ts

theorem recapDesc_trans (a b c : Recap) :
    recapDesc a b → recapDesc b c → recapDesc a c := by
  simp only [recapDesc, decide_eq_true_eq]
  intro h1 h2
  exact le_trans h2 h1

theorem recapDesc_total (a b : Recap) : recapDesc a b || recapDesc b a := by
  simp only [recapDesc, Bool.or_eq_true, decide_eq_true_eq]
  exact le_total b.latest_timestamp a.latest_timestamp

/-- Stability of `mergeSort` in filter form: on a set of elements over which
the comparison always holds (e.g. equal sort keys), the output preserves the
input order exactly. -/
theorem filter_mergeSort_eq {α : Type} (le : α → α → Bool)
    (htrans : ∀ a b c, le a b → le b c → le a c)
    (htotal : ∀ a b, le a b || le b a)
    (p : α → Bool) (hp : ∀ a b, p a → p b → le a b) (l : List α) :
    (l.mergeSort le).filter p = l.filter p := by
  have hpw : (l.filter p).Pairwise (fun a b => le a b) :=
    List.pairwise_of_forall_mem_list fun a ha b hb =>
      hp a b (List.of_mem_filter ha) (List.of_mem_filter hb)
  have hsub : (l.filter p).Sublist (l.mergeSort le) :=
    List.sublist_mergeSort htrans htotal hpw (List.filter_sublist l)
  have hsub2 : (l.filter p).Sublist ((l.mergeSort le).filter p) := by
    have h2 := hsub.filter p
    simpa only [List.filter_filter, Bool.and_self] using h2
  have hperm : ((l.mergeSort le).filter p).Perm (l.filter p) :=
    (List.mergeSort_perm l le).filter p
  exact (hsub2.eq_of_length hperm.length_eq.symm).symm

theorem find?_append_or {α : Type} (p : α → Bool) (l₁ l₂ : List α) :
    (l₁ ++ l₂).find? p =
      match l₁.find? p with
      | some a => some a
      | none => l₂.find? p := by
  induction l₁ with
  | nil => simp
  | cons a l ih =>
      by_cases h : p a
      · simp [List.find?_cons_of_pos _ h]
      · simp only [List.cons_append, List.find?_cons_of_neg _ h, ih]

theorem find?_eq_some_of_unique {α : Type} (p : α → Bool) (l : List α) (a : α)
    (ha : a ∈ l) (hpa : p a) (huniq : ∀ b ∈ l, p b → b = a) :
    l.find? p = some a := by
  induction l with
  | nil => cases ha
  | cons b l ih =>
      by_cases hb : p b
      · have hba : b = a := huniq b (List.mem_cons_self b l) hb
        rw [List.find?_cons_of_pos _ hb, hba]
      · rw [List.find?_cons_of_neg _ hb]
        have ha' : a ∈ l := by
          rcases List.mem_cons.mp ha with h | h
          · exact absurd (h ▸ hpa) hb
          · exact h
        exact ih ha' fun b' hb' hpb' => huniq b' (List.mem_cons_of_mem _ hb') hpb'

theorem cacheChannel_lookup (m : String → Option Channel) (c : Channel)
    (k : String) :
    cacheChannel m c k = if hitsKey k c then some c else m k := by
  unfold cacheChannel dictInsert hitsKey
  cases hn : c.name with
  | none =>
      by_cases h : k = c.id <;> simp [h]
  | some n =>
      by_cases h1 : k = n
      · simp [h1]
      · by_cases h2 : k = c.id <;> simp [h1, h2, Ne.symm h1]

/-- The channel cache after a refresh, characterized key-by-key: the value at
`k` is the LAST listed record writing `k`, else the previous cache value. -/
theorem foldl_cacheChannel_lookup (channels : List Channel)
    (m : String → Option Channel) (k : String) :
    (channels.foldl cacheChannel m) k =
      match channels.reverse.find? (hitsKey k) with
      | some c => some c
      | none => m k := by
  induction channels generalizing m with
  | nil => simp
  | cons c cs ih =>
      rw [List.foldl_cons, ih, List.reverse_cons, find?_append_or]
      cases h : cs.reverse.find? (hitsKey k) with
      | some c' => simp
      | none =>
          simp only []
          by_cases hc : hitsKey k c
          · simp [List.find?_cons_of_pos _ hc, cacheChannel_lookup, hc]
          · simp [List.find?_cons_of_neg _ hc, cacheChannel_lookup, hc]

theorem annotateMsgs_fst (cid : String) (ms : List Msg) (st : HandlerState) :
    (annotateMsgs cid ms st).1 = ms.map (annot cid) := by
  have key : ∀ (ms : List Msg) (acc : List Msg) (st : HandlerState),
      (ms.foldl
        (fun acc msg =>
          let r := generate_message_id acc.2 cid (ratTs msg.ts)
          (acc.1 ++ [{ msg with msg_id := some r.1 }], r.2)) (acc, st)).1 =
        acc ++ ms.map (annot cid) := by
    intro ms
    induction ms with
    | nil => intro acc st; simp
    | cons m ms ih =>
        intro acc st
        simp only [List.foldl_cons, List.map_cons]
        rw [ih]
        simp [annot, generate_message_id, List.append_assoc]
  simpa using key ms [] st

theorem flatMap_byteHex_length (l : List Nat) :
    (l.flatMap byteHex).length = 2 * l.length := by
  induction l with
  | nil => simp
  | cons b l ih =>
      simp only [List.flatMap_cons, List.length_append, ih, byteHex,
        List.length_cons, List.length_nil, List.length_map]
      omega

theorem md5bytes_length (msg : List Nat) : (md5bytes msg).length = 16 := by
  simp [md5bytes, wordLE]

theorem md5hex_length (s : String) : (md5hex s).length = 32 := by
  show ((md5bytes (utf8Bytes s)).flatMap byteHex).length = 32
  rw [flatMap_byteHex_length, md5bytes_length]

theorem md5hex_mem_hex (s : String) (c : Char) (hc : c ∈ md5hex s) :
    c ∈ hexDigitChars := by
  have hall : ∀ m < 16, Nat.digitChar m ∈ hexDigitChars := by decide
  simp only [md5hex, List.mem_flatMap] at hc
  obtain ⟨b, -, hb⟩ := hc
  simp only [byteHex, List.mem_cons, List.not_mem_nil, or_false] at hb
  rcases hb with h | h
  · exact h ▸ hall _ (Nat.mod_lt _ (by norm_num))
  · exact h ▸ hall _ (Nat.mod_lt _ (by norm_num))

/-- C5: for every handler state and every `(channel, ts)` pair, the local
message id is deterministic (it does not depend on the handler state, so
recomputation yields the same value), is exactly 8 characters long, and
consists of hexadecimal digits. -/
theorem generate_message_id_deterministic_8hex :
    ∀ (st₁ st₂ : HandlerState) (channel ts : String),
      (generate_message_id st₁ channel ts).1 =
        (generate_message_id st₂ channel ts).1 ∧
      ((generate_message_id st₁ channel ts).1).length = 8 ∧
      ∀ c ∈ ((generate_message_id st₁ channel ts).1).toList, c ∈ hexDigitChars := by
  intro st₁ st₂ channel ts
  refine ⟨rfl, ?_, ?_⟩
  · show (msgHash channel ts).length = 8
    simp [msgHash, List.length_take, md5hex_length]
  · intro c hc
    have hmem : c ∈ (md5hex (channel ++ ":" ++ ts)).take 8 := hc
    exact md5hex_mem_hex _ c (List.take_subset _ _ hmem)

/-- C4: the fuzzy matcher assigns exactly the tiered scores — for channels:
exact lowered-name match 100, starts-with 90, substring 70, all query
characters present 50, else excluded; for users: deleted users excluded
before scoring, exact username 100, exact real name 95, username starts-with
90, substring of username or real name 70, else excluded (`channelScore` and
`userScore` are these tier chains) — and returns the scored pairs in
descending score order, preserving input order among equal scores. -/
theorem fuzzy_match_tiered_scores_and_order :
    (∀ (query : String) (channels : List AcChannel) (ch : AcChannel) (s : Nat),
       ((ch, s) ∈ fuzzy_match_channels query channels ↔
         ch ∈ channels ∧
           channelScore (pyStrip query.toLower '#') ch.name.toLower = some s)) ∧
    (∀ (query : String) (channels : List AcChannel),
       (fuzzy_match_channels query channels).Pairwise fun a b => b.2 ≤ a.2) ∧
    (∀ (query : String) (channels : List AcChannel) (k : Nat),
       (fuzzy_match_channels query channels).filter (fun p => p.2 == k) =
         (channels.filterMap fun ch =>
           (channelScore (pyStrip query.toLower '#') ch.name.toLower).map
             fun s => (ch, s)).filter fun p => p.2 == k) ∧
    (∀ (query : String) (users : List AcUser) (u : AcUser) (s : Nat),
       ((u, s) ∈ fuzzy_match_users query users ↔
         u ∈ users ∧ u.deleted = false ∧
           userScore (pyStrip query.toLower '@') u = some s)) ∧
    (∀ (query : String) (users : List AcUser),
       (fuzzy_match_users query users).Pairwise fun a b => b.2 ≤ a.2) ∧
    (∀ (query : String) (users : List AcUser) (k : Nat),
       (fuzzy_match_users query users).filter (fun p => p.2 == k) =
         (users.filterMap fun user =>
           if user.deleted then none
           else (userScore (pyStrip query.toLower '@') user).map
             fun s => (user, s)).filter fun p => p.2 == k) := by
  have hscore : ∀ (k : Nat) (a b : (AcChannel × Nat)),
      (fun p => p.2 == k) a → (fun p => p.2 == k) b → scoreDesc a b := by
    intro k a b ha hb
    simp only [beq_iff_eq] at ha hb
    simp [scoreDesc, ha, hb]
  have hscore' : ∀ (k : Nat) (a b : (AcUser × Nat)),
      (fun p => p.2 == k) a → (fun p => p.2 == k) b → scoreDesc a b := by
    intro k a b ha hb
    simp only [beq_iff_eq] at ha hb
    simp [scoreDesc, ha, hb]
  refine ⟨?_, ?_, ?_, ?_, ?_, ?_⟩
  · intro query channels ch s
    simp only [fuzzy_match_channels, List.mem_mergeSort, List.mem_filterMap,
      Option.map_eq_some', Prod.mk.injEq]
    constructor
    · rintro ⟨a, ha, s', hs', rfl, rfl⟩
      exact ⟨ha, hs'⟩
    · rintro ⟨ha, hs⟩
      exact ⟨ch, ha, s, hs, rfl, rfl⟩
  · intro query channels
    simp only [fuzzy_match_channels]
    exact (List.sorted_mergeSort scoreDesc_trans scoreDesc_total _).imp
      fun h => by simpa [scoreDesc] using h
  · intro query channels k
    simp only [fuzzy_match_channels]
    exact filter_mergeSort_eq scoreDesc scoreDesc_trans scoreDesc_total _
      (hscore k) _
  · intro query users u s
    simp only [fuzzy_match_users, List.mem_mergeSort, List.mem_filterMap]
    constructor
    · rintro ⟨a, ha, hs⟩
      by_cases hd : a.deleted = true
      · rw [if_pos hd] at hs
        exact absurd hs (by simp)
      · rw [if_neg hd] at hs
        rw [Option.map_eq_some'] at hs
        obtain ⟨s', hs', heq⟩ := hs
        rw [Prod.mk.injEq] at heq
        obtain ⟨rfl, rfl⟩ := heq
        rw [Bool.not_eq_true] at hd
        exact ⟨ha, hd, hs'⟩
    · rintro ⟨ha, hd, hs⟩
      refine ⟨u, ha, ?_⟩
      simp [hd, hs]
  · intro query users
    simp only [fuzzy_match_users]
    exact (List.sorted_mergeSort scoreDesc_trans scoreDesc_total _).imp
      fun h => by simpa [scoreDesc] using h
  · intro query users k
    simp only [fuzzy_match_users]
    exact filter_mergeSort_eq scoreDesc scoreDesc_trans scoreDesc_total _
      (hscore' k) _

/-- C3: a provider failure makes `get_channels` and `get_messages` raise a
`SlackPermissionError` carrying the provider's error code — never an empty
list (on provider success `get_channels` returns exactly the provider's
listing) — while the same kind of failure makes `search_messages` return the
empty sequence without raising. -/
theorem listing_raises_search_degrades :
    (∀ (client : WebClient) (st : HandlerState) (types : String) (d : ErrData),
       client.conversations_list types true 1000 = .error d →
       get_channels client st types =
         .error (.perm (mkPermError "conversations.list" d))) ∧
    (∀ (client : WebClient) (st : HandlerState) (types : String)
       (channels : List Channel),
       client.conversations_list types true 1000 = .ok channels →
       ∃ st', get_channels client st types = .ok (channels, st')) ∧
    (∀ (client : WebClient) (st : HandlerState) (channel_id : String)
       (limit : Nat) (latest : Option String) (d : ErrData),
       client.conversations_history channel_id limit latest = .error d →
       get_messages client st channel_id limit latest =
         .error (.perm (mkPermError "conversations.history" d))) ∧
    (∀ (client : WebClient) (st : HandlerState) (query : String) (count : Nat)
       (d : ErrData),
       client.search_messages query count = .error d →
       search_messages client st query count =
         ([], st.logCall (.searchMessages query count))) := by
  refine ⟨?_, ?_, ?_, ?_⟩
  · intro client st types d h
    simp [get_channels, h]
  · intro client st types channels h
    refine ⟨{ st.logCall (.conversationsList types) with
      channel_cache :=
        channels.foldl cacheChannel (st.logCall (.conversationsList types)).channel_cache }, ?_⟩
    simp [get_channels, h]
  · intro client st channel_id limit latest d h
    simp [get_messages, h]
  · intro client st query count d h
    simp [search_messages, h]

/-- C7: with an empty VIP registry, `get_vip_messages` returns the empty
sequence immediately with the handler state returned untouched — in
particular the call trace `calls` is unchanged, i.e. no channel-listing or
message-fetch round-trip is issued. -/
theorem get_vip_messages_empty_registry_no_calls :
    ∀ (client : WebClient) (st : HandlerState) (settings : Settings)
      (limit : Nat),
      settings.vip_users = [] →
      get_vip_messages client st settings limit = .ok ([], st) := by
  intro client st settings limit h
  simp [get_vip_messages, Settings.get_vip_users, h]

/-- C8: on a non-empty recap list of length `n` with cursor `i`, `0 ≤ i < n`,
`next_recap` moves the cursor to `(i + 1) mod n` and `previous_recap` to
`(i - 1) mod n` (Python integer `mod`, so `previous` from 0 lands on
`n - 1`), each returning the recap stored at the new index; on an empty list
both return `none` and leave the state unchanged. -/
theorem recap_cursor_wraparound :
    (∀ (s : RecapState),
       0 ≤ s.current_index → s.current_index < (s.recaps.length : Int) →
       next_recap s =
         (s.recaps.get? ((s.current_index + 1) % (s.recaps.length : Int)).toNat,
          ⟨s.recaps, (s.current_index + 1) % (s.recaps.length : Int)⟩) ∧
       (s.recaps.get?
         ((s.current_index + 1) % (s.recaps.length : Int)).toNat).isSome ∧
       previous_recap s =
         (s.recaps.get? ((s.current_index - 1) % (s.recaps.length : Int)).toNat,
          ⟨s.recaps, (s.current_index - 1) % (s.recaps.length : Int)⟩) ∧
       (s.recaps.get?
         ((s.current_index - 1) % (s.recaps.length : Int)).toNat).isSome) ∧
    (∀ (s : RecapState), s.recaps = [] →
       next_recap s = (none, s) ∧ previous_recap s = (none, s)) := by
  constructor
  · intro s h0 h1
    have hlen : 0 < (s.recaps.length : Int) := lt_of_le_of_lt h0 h1
    have hne : s.recaps.isEmpty = false := by
      rcases hr : s.recaps with _ | ⟨a, l⟩
      · rw [hr] at hlen; simp at hlen
      · rfl
    have hnz : (s.recaps.length : Int) ≠ 0 := ne_of_gt hlen
    have hj0 : 0 ≤ (s.current_index + 1) % (s.recaps.length : Int) :=
      Int.emod_nonneg _ hnz
    have hjn : (s.current_index + 1) % (s.recaps.length : Int) <
        (s.recaps.length : Int) := Int.emod_lt_of_pos _ hlen
    have hk0 : 0 ≤ (s.current_index - 1) % (s.recaps.length : Int) :=
      Int.emod_nonneg _ hnz
    have hkn : (s.current_index - 1) % (s.recaps.length : Int) <
        (s.recaps.length : Int) := Int.emod_lt_of_pos _ hlen
    have hjt : ((s.current_index + 1) % (s.recaps.length : Int)).toNat <
        s.recaps.length := by omega
    have hkt : ((s.current_index - 1) % (s.recaps.length : Int)).toNat <
        s.recaps.length := by omega
    refine ⟨?_, ?_, ?_, ?_⟩
    · simp [next_recap, hne, get_current_recap, pyIndex, hj0, hjn.not_le]
    · rw [List.get?_eq_get hjt]; rfl
    · simp [previous_recap, hne, get_current_recap, pyIndex, hk0, hkn.not_le]
    · rw [List.get?_eq_get hkt]; rfl
  · intro s h
    constructor <;> simp [next_recap, previous_recap, h]

/-- Witness for C8, realizing spec §8 property 5 on a three-element recap
list at index 0: `previous` wraps to index 2 and returns the last recap. -/
theorem recap_cursor_wraparound_witness :
    0 ≤ recapStateW.current_index ∧
    recapStateW.current_index < (recapStateW.recaps.length : Int) ∧
    previous_recap recapStateW = (some recapC, ⟨recapsW, 2⟩) ∧
    next_recap recapStateW = (some recapB, ⟨recapsW, 1⟩) := by
  have h := recap_cursor_wraparound.1 recapStateW (by decide) (by decide)
  exact ⟨by decide, by decide, h.2.2.1.trans (by decide), h.1.trans (by decide)⟩

theorem get_channels_ok_shape (client : WebClient) (st : HandlerState)
    (types : String) (l : List Channel)
    (h : client.conversations_list types true 1000 = .ok l) :
    get_channels client st types =
      .ok (l, { st.logCall (.conversationsList types) with
        channel_cache :=
          l.foldl cacheChannel (st.logCall (.conversationsList types)).channel_cache }) := by
  simp [get_channels, h]

theorem get_users_ok_shape (client : WebClient) (st : HandlerState)
    (l : List User) (h : client.users_list () = .ok l) :
    get_users client st =
      .ok (l, { st.logCall .usersList with
        user_cache := l.foldl cacheUser (st.logCall .usersList).user_cache }) := by
  simp [get_users, h]

/-- C9: after a successful `get_channels` refresh over a listing with
provider-unique ids none of which collides with a listed name, every returned
record is cached under its id; and for every way of splitting the listing
around a record `c` carrying name `n` such that no later record also carries
`n`, the name key `n` maps to `c` — i.e. both keys resolve to an equal
record, and on a name collision the later record in the listing wins. -/
theorem get_channels_dual_key_cache :
    ∀ (client : WebClient) (st : HandlerState) (types : String)
      (channels : List Channel) (st' : HandlerState),
      get_channels client st types = .ok (channels, st') →
      (channels.map (·.id)).Nodup →
      (∀ a, a ∈ channels → ∀ b, b ∈ channels →
        ∀ n, b.name = some n → n ≠ a.id) →
      (∀ c, c ∈ channels → st'.channel_cache c.id = some c) ∧
      (∀ l₁ c l₂, channels = l₁ ++ c :: l₂ → ∀ n, c.name = some n →
        (∀ b, b ∈ l₂ → b.name ≠ some n) → st'.channel_cache n = some c) := by
  intro client st types channels st' h hnodup hdisj
  cases hcl : client.conversations_list types true 1000 with
  | error d => simp [get_channels, hcl] at h
  | ok chs =>
      rw [get_channels_ok_shape client st types chs hcl] at h
      rw [Except.ok.injEq, Prod.mk.injEq] at h
      obtain ⟨h1, h2⟩ := h
      subst h1
      subst h2
      constructor
      · intro c hc
        show (chs.foldl cacheChannel
          (st.logCall (ApiCall.conversationsList types)).channel_cache) c.id = some c
        rw [foldl_cacheChannel_lookup]
        have hfind : chs.reverse.find? (hitsKey c.id) = some c := by
          apply find?_eq_some_of_unique
          · exact List.mem_reverse.mpr hc
          · simp [hitsKey]
          · intro b hb hpb
            have hb' : b ∈ chs := List.mem_reverse.mp hb
            simp only [hitsKey, Bool.or_eq_true, decide_eq_true_eq] at hpb
            rcases hpb with hid | hname
            · exact List.inj_on_of_nodup_map hnodup hb' hc hid.symm
            · exact absurd rfl (hdisj c hc b hb' c.id hname)
        rw [hfind]
      · intro l₁ c l₂ hsplit n hn hlater
        have hc : c ∈ chs := by
          rw [hsplit]; exact List.mem_append_right _ (List.mem_cons_self _ _)
        show (chs.foldl cacheChannel
          (st.logCall (ApiCall.conversationsList types)).channel_cache) n = some c
        rw [foldl_cacheChannel_lookup]
        have hrev : chs.reverse = l₂.reverse ++ (c :: l₁.reverse) := by
          rw [hsplit]
          simp
        rw [hrev, find?_append_or]
        have hnone : l₂.reverse.find? (hitsKey n) = none := by
          rw [List.find?_eq_none]
          intro b hb
          have hb2 : b ∈ l₂ := List.mem_reverse.mp hb
          have hbc : b ∈ chs := by
            rw [hsplit]
            exact List.mem_append_right _ (List.mem_cons_of_mem _ hb2)
          simp only [hitsKey, Bool.or_eq_true, decide_eq_true_eq, not_or]
          exact ⟨fun hid => hdisj b hbc c hc n hn hid, hlater b hb2⟩
        rw [hnone]
        have hpc : hitsKey n c = true := by
          simp [hitsKey, hn]
        rw [List.find?_cons_of_pos _ hpc]

/-- Witness for C9: a refresh returning two channels that share the name
"dup"; both ids resolve to their records and the name key resolves to the
later record. -/
theorem get_channels_dual_key_cache_witness :
    get_channels dupClient initState "public_channel" =
      .ok ([dupChan1, dupChan2], dupSt) ∧
    ([dupChan1, dupChan2].map (·.id)).Nodup ∧
    dupSt.channel_cache "C1" = some dupChan1 ∧
    dupSt.channel_cache "C2" = some dupChan2 ∧
    dupSt.channel_cache "dup" = some dupChan2 := by
  have h := get_channels_dual_key_cache dupClient initState "public_channel"
    [dupChan1, dupChan2] dupSt rfl (by decide) (by decide)
  refine ⟨rfl, by decide, h.1 dupChan1 (by decide), h.1 dupChan2 (by decide), ?_⟩
  exact h.2 [dupChan1] dupChan2 [] rfl "dup" rfl (by decide)

theorem map_isEmpty {α β : Type} (f : α → β) (l : List α) :
    (l.map f).isEmpty = l.isEmpty := by
  cases l <;> rfl

theorem get_messages_ok_shape (client : WebClient) (st : HandlerState)
    (cid : String) (limit : Nat) (latest : Option String) (ms : List Msg)
    (h : client.conversations_history cid limit latest = .ok ms) :
    get_messages client st cid limit latest =
      .ok (annotateMsgs cid ms (st.logCall (.conversationsHistory cid limit))) := by
  simp [get_messages, h]

/-- The recap list built by the `generate_recaps` loop, characterized
channel-by-channel: each member channel contributes its `recapOf` outcome,
independently of the threaded handler state; channels whose fetch raises or
yields no messages are omitted and the loop continues. -/
theorem foldl_recapStep_fst (client : WebClient) (mpc : Nat)
    (chs : List Channel) (acc : List Recap) (st : HandlerState) :
    (chs.foldl (recapStep client mpc) (acc, st)).1 =
      acc ++ chs.filterMap (recapOf client mpc) := by
  induction chs generalizing acc st with
  | nil => simp
  | cons c cs ih =>
      rw [List.foldl_cons]
      cases h : client.conversations_history c.id mpc none with
      | error d =>
          have hstep : recapStep client mpc (acc, st) c = (acc, st) := by
            simp [recapStep, get_messages, h]
          rw [hstep, ih]
          simp [recapOf, h, List.filterMap_cons]
      | ok ms =>
          have hget := get_messages_ok_shape client st c.id mpc none ms h
          have hfst := annotateMsgs_fst c.id ms
            (st.logCall (.conversationsHistory c.id mpc))
          cases he : ms.isEmpty with
          | true =>
              have hstep : recapStep client mpc (acc, st) c =
                  (acc, (annotateMsgs c.id ms
                    (st.logCall (.conversationsHistory c.id mpc))).2) := by
                simp [recapStep, hget, hfst, map_isEmpty, he]
              rw [hstep, ih]
              simp [recapOf, h, he, List.filterMap_cons]
          | false =>
              cases hcr : create_recap c (ms.map (annot c.id)) with
              | error e =>
                  have hstep : recapStep client mpc (acc, st) c =
                      (acc, (annotateMsgs c.id ms
                        (st.logCall (.conversationsHistory c.id mpc))).2) := by
                    simp [recapStep, hget, hfst, map_isEmpty, he, hcr]
                  rw [hstep, ih]
                  simp [recapOf, h, he, hcr, List.filterMap_cons]
              | ok recap =>
                  have hstep : recapStep client mpc (acc, st) c =
                      (acc ++ [recap], (annotateMsgs c.id ms
                        (st.logCall (.conversationsHistory c.id mpc))).2) := by
                    simp [recapStep, hget, hfst, map_isEmpty, he, hcr]
                  rw [hstep, ih]
                  simp [recapOf, h, he, hcr, List.filterMap_cons]

/-- C10: a failure of the initial channel listing propagates out of
`generate_recaps` as the `SlackPermissionError`; but when the listing
succeeds, `generate_recaps` always succeeds, and its recap list is exactly
the per-member-channel `recapOf` outcomes (sorted by latest activity): a
member channel whose message fetch raises — `PermissionError` included — is
silently omitted while the remaining channels are still processed. -/
theorem generate_recaps_swallows_fetch_errors :
    (∀ (client : WebClient) (st : HandlerState) (types : String) (mpc : Nat)
       (d : ErrData),
       client.conversations_list types true 1000 = .error d →
       generate_recaps client st types mpc =
         .error (.perm (mkPermError "conversations.list" d))) ∧
    (∀ (client : WebClient) (st : HandlerState) (types : String) (mpc : Nat)
       (channels : List Channel),
       client.conversations_list types true 1000 = .ok channels →
       ∃ hst',
         generate_recaps client st types mpc =
           .ok ((((channels.filter (·.is_member)).filterMap
              (recapOf client mpc)).mergeSort recapDesc),
             hst',
             ⟨(((channels.filter (·.is_member)).filterMap
              (recapOf client mpc)).mergeSort recapDesc), 0⟩)) := by
  constructor
  · intro client st types mpc d h
    simp [generate_recaps, get_channels, h]
  · intro client st types mpc channels h
    refine ⟨((channels.filter (·.is_member)).foldl (recapStep client mpc)
      ([], { st.logCall (.conversationsList types) with
        channel_cache := channels.foldl cacheChannel
          (st.logCall (.conversationsList types)).channel_cache })).2, ?_⟩
    rw [generate_recaps, get_channels_ok_shape client st types channels h]
    dsimp only
    rw [foldl_recapStep_fst]
    simp

/-- Witness for C10: of two member channels the fetch for `CA` raises and
`CB` yields one message; recap generation succeeds and contains exactly the
`CB` recap, while the non-member `CC` and the failing `CA` are omitted. -/
theorem generate_recaps_swallows_fetch_errors_witness :
    rgClient.conversations_list "public_channel" true 1000 =
      .ok [rgChanA, rgChanB, rgChanC] ∧
    rgClient.conversations_history "CA" 10 none = .error errData0 ∧
    (∃ hst',
      generate_recaps rgClient initState "public_channel" 10 =
        .ok (((([rgChanA, rgChanB, rgChanC].filter (·.is_member)).filterMap
            (recapOf rgClient 10)).mergeSort recapDesc),
          hst',
          ⟨((([rgChanA, rgChanB, rgChanC].filter (·.is_member)).filterMap
            (recapOf rgClient 10)).mergeSort recapDesc), 0⟩)) ∧
    (([rgChanA, rgChanB, rgChanC].filter (·.is_member)).filterMap
        (recapOf rgClient 10)).map Recap.channel_id = ["CB"] := by
  refine ⟨rfl, rfl,
    generate_recaps_swallows_fetch_errors.2 rgClient initState
      "public_channel" 10 [rgChanA, rgChanB, rgChanC] rfl, ?_⟩
  decide

/-- C6: whenever `get_vip_messages` succeeds after gathering the retained
per-channel VIP messages, it returns their stable sort by timestamp
descending: the output is pairwise descending under the rational timestamp
order (float comparison in the source), and the messages at each fixed
timestamp appear exactly in the order in which they were gathered. -/
theorem get_vip_messages_sorted_stable :
    ∀ (client : WebClient) (st : HandlerState) (settings : Settings)
      (limit : Nat) (channels : List Channel) (st₁ : HandlerState)
      (gathered : List Msg) (st₂ : HandlerState),
      settings.vip_users ≠ [] →
      get_channels client st "public_channel" = .ok (channels, st₁) →
      vipGather client st₁ channels (settings.vip_users.map (·.id)) limit =
        .ok (gathered, st₂) →
      get_vip_messages client st settings limit =
        .ok (gathered.mergeSort tsDesc, st₂) ∧
      (gathered.mergeSort tsDesc).Pairwise (fun a b => b.ts ≤ a.ts) ∧
      ∀ t : Rat,
        (gathered.mergeSort tsDesc).filter (fun m => m.ts == t) =
          gathered.filter (fun m => m.ts == t) := by
  intro client st settings limit channels st₁ gathered st₂ hne hch hg
  refine ⟨?_, ?_, ?_⟩
  · have hids : (settings.vip_users.map (·.id)).isEmpty = false := by
      cases hv : settings.vip_users with
      | nil => exact absurd hv hne
      | cons a l => simp
    rw [get_vip_messages]
    simp only [Settings.get_vip_users, hids, Bool.false_eq_true, if_false,
      hch, hg]
  · exact (List.sorted_mergeSort tsDesc_trans tsDesc_total gathered).imp
      fun h => by simpa [tsDesc] using h
  · intro t
    refine filter_mergeSort_eq tsDesc tsDesc_trans tsDesc_total _ ?_ gathered
    intro a b ha hb
    simp only [beq_iff_eq] at ha hb
    simp [tsDesc, ha, hb]

/-- Witness for C6, realizing spec §8 property 4: three VIP messages with
timestamps 100, 300.5, 300.5 from three channels; the output starts with the
tied 300.5 messages in their gathered order and ends with the 100 one. -/
theorem get_vip_messages_sorted_stable_witness :
    vipSettings.vip_users ≠ [] ∧
    get_channels vipClient initState "public_channel" =
      .ok ([vipChan1, vipChan2, vipChan3], vipSt1) ∧
    vipGather vipClient vipSt1 [vipChan1, vipChan2, vipChan3]
      (vipSettings.vip_users.map (·.id)) 50 = .ok (vipGathered, vipSt2) ∧
    get_vip_messages vipClient initState vipSettings 50 =
      .ok (vipGathered.mergeSort tsDesc, vipSt2) ∧
    vipGathered.map Msg.ts = [ts100, tsTie, tsTie] ∧
    ((vipGathered.mergeSort tsDesc).filter fun m => m.ts == tsTie).map
      Msg.text = ["b", "c"] ∧
    ((vipGathered.mergeSort tsDesc).filter fun m => m.ts == ts100).map
      Msg.text = ["a"] := by
  have h := get_vip_messages_sorted_stable vipClient initState vipSettings 50
    [vipChan1, vipChan2, vipChan3] vipSt1 vipGathered vipSt2
    (by decide) rfl rfl
  refine ⟨by decide, rfl, rfl, h.1, by decide, ?_, ?_⟩
  · rw [h.2.2 tsTie]; decide
  · rw [h.2.2 ts100]; decide

/-- Counterexample to C1 as stated: with a provider that rejects the listing
calls, an identifier that is neither ID-prefixed nor cached makes
`resolve_channel` / `resolve_user` raise the refresh's
`SlackPermissionError` instead of returning an id or absent. -/
theorem resolve_helpers_raise_counterexample :
    resolve_channel errClient initState "general" "public_channel" =
      .error (.perm ⟨"conversations.list", "missing_scope", none, none⟩) ∧
    resolve_user errClient initState "alice" =
      .error (.perm ⟨"users.list", "missing_scope", none, none⟩) := by
  exact ⟨rfl, rfl⟩

/-- C1 amended: the resolution helpers return an id or absent — never an
error — on the ID-prefix shortcut and cache-hit paths (for every behaviour of
the provider, since no remote call is made there) and, on the cache-miss
path, whenever the forced refresh's provider listing succeeds; the only
raising path is a provider failure during the forced refresh, which
propagates as that refresh's `SlackPermissionError`. -/
theorem resolve_helpers_raise_only_on_refresh_failure :
    (∀ (client : WebClient) (st : HandlerState) (identifier types : String),
       (pyStartsWith (pyLstrip identifier '#') "C" ||
         pyStartsWith (pyLstrip identifier '#') "D" ||
         pyStartsWith (pyLstrip identifier '#') "G") = true →
       resolve_channel client st identifier types =
         .ok (some (pyLstrip identifier '#'), st)) ∧
    (∀ (client : WebClient) (st : HandlerState) (identifier types : String)
       (ch : Channel),
       (pyStartsWith (pyLstrip identifier '#') "C" ||
         pyStartsWith (pyLstrip identifier '#') "D" ||
         pyStartsWith (pyLstrip identifier '#') "G") = false →
       st.channel_cache (pyLstrip identifier '#') = some ch →
       resolve_channel client st identifier types = .ok (some ch.id, st)) ∧
    (∀ (client : WebClient) (st : HandlerState) (identifier types : String)
       (l : List Channel),
       client.conversations_list types true 1000 = .ok l →
       ∃ r st', resolve_channel client st identifier types = .ok (r, st')) ∧
    (∀ (client : WebClient) (st : HandlerState) (identifier types : String)
       (d : ErrData),
       client.conversations_list types true 1000 = .error d →
       (pyStartsWith (pyLstrip identifier '#') "C" ||
         pyStartsWith (pyLstrip identifier '#') "D" ||
         pyStartsWith (pyLstrip identifier '#') "G") = false →
       st.channel_cache (pyLstrip identifier '#') = none →
       resolve_channel client st identifier types =
         .error (.perm (mkPermError "conversations.list" d))) ∧
    (∀ (client : WebClient) (st : HandlerState) (identifier : String),
       pyStartsWith (pyLstrip identifier '@') "U" = true →
       resolve_user client st identifier =
         .ok (some (pyLstrip identifier '@'), st)) ∧
    (∀ (client : WebClient) (st : HandlerState) (identifier : String)
       (u : User),
       pyStartsWith (pyLstrip identifier '@') "U" = false →
       st.user_cache (pyLstrip identifier '@') = some u →
       resolve_user client st identifier = .ok (some u.id, st)) ∧
    (∀ (client : WebClient) (st : HandlerState) (identifier : String)
       (l : List User),
       client.users_list () = .ok l →
       ∃ r st', resolve_user client st identifier = .ok (r, st')) ∧
    (∀ (client : WebClient) (st : HandlerState) (identifier : String)
       (d : ErrData),
       client.users_list () = .error d →
       pyStartsWith (pyLstrip identifier '@') "U" = false →
       st.user_cache (pyLstrip identifier '@') = none →
       resolve_user client st identifier =
         .error (.perm (mkPermError "users.list" d))) := by
  refine ⟨?_, ?_, ?_, ?_, ?_, ?_, ?_, ?_⟩
  · intro client st identifier types hsw
    simp only [resolve_channel]
    rw [if_pos hsw]
  · intro client st identifier types ch hsw hcc
    have hsw' : ¬((pyStartsWith (pyLstrip identifier '#') "C" ||
        pyStartsWith (pyLstrip identifier '#') "D" ||
        pyStartsWith (pyLstrip identifier '#') "G") = true) := by
      rw [hsw]; simp
    simp only [resolve_channel]
    rw [if_neg hsw', hcc]
  · intro client st identifier types l h
    simp only [resolve_channel]
    by_cases hsw : (pyStartsWith (pyLstrip identifier '#') "C" ||
        pyStartsWith (pyLstrip identifier '#') "D" ||
        pyStartsWith (pyLstrip identifier '#') "G") = true
    · rw [if_pos hsw]
      exact ⟨some (pyLstrip identifier '#'), st, rfl⟩
    · rw [if_neg hsw]
      cases hcc : st.channel_cache (pyLstrip identifier '#') with
      | some ch => exact ⟨some ch.id, st, rfl⟩
      | none =>
          rw [get_channels_ok_shape client st types l h]
          dsimp only
          cases hcc2 : (l.foldl cacheChannel
              (st.logCall (ApiCall.conversationsList types)).channel_cache)
              (pyLstrip identifier '#') with
          | some ch =>
              refine ⟨some ch.id, { st.logCall (.conversationsList types) with
                channel_cache := l.foldl cacheChannel
                  (st.logCall (.conversationsList types)).channel_cache }, ?_⟩
              rfl
          | none =>
              refine ⟨none, { st.logCall (.conversationsList types) with
                channel_cache := l.foldl cacheChannel
                  (st.logCall (.conversationsList types)).channel_cache }, ?_⟩
              rfl
  · intro client st identifier types d h hsw hcc
    have hsw' : ¬((pyStartsWith (pyLstrip identifier '#') "C" ||
        pyStartsWith (pyLstrip identifier '#') "D" ||
        pyStartsWith (pyLstrip identifier '#') "G") = true) := by
      rw [hsw]; simp
    simp only [resolve_channel]
    rw [if_neg hsw', hcc]
    simp [get_channels, h]
  · intro client st identifier hsw
    simp only [resolve_user]
    rw [if_pos hsw]
  · intro client st identifier u hsw hcc
    have hsw' : ¬(pyStartsWith (pyLstrip identifier '@') "U" = true) := by
      rw [hsw]; simp
    simp only [resolve_user]
    rw [if_neg hsw', hcc]
  · intro client st identifier l h
    simp only [resolve_user]
    by_cases hsw : pyStartsWith (pyLstrip identifier '@') "U" = true
    · rw [if_pos hsw]
      exact ⟨some (pyLstrip identifier '@'), st, rfl⟩
    · rw [if_neg hsw]
      cases hcc : st.user_cache (pyLstrip identifier '@') with
      | some u => exact ⟨some u.id, st, rfl⟩
      | none =>
          rw [get_users_ok_shape client st l h]
          dsimp only
          cases hcc2 : (l.foldl cacheUser
              (st.logCall ApiCall.usersList).user_cache)
              (pyLstrip identifier '@') with
          | some u =>
              refine ⟨some u.id, { st.logCall .usersList with
                user_cache := l.foldl cacheUser
                  (st.logCall .usersList).user_cache }, ?_⟩
              rfl
          | none =>
              refine ⟨none, { st.logCall .usersList with
                user_cache := l.foldl cacheUser
                  (st.logCall .usersList).user_cache }, ?_⟩
              rfl
  · intro client st identifier d h hsw hcc
    have hsw' : ¬(pyStartsWith (pyLstrip identifier '@') "U" = true) := by
      rw [hsw]; simp
    simp only [resolve_user]
    rw [if_neg hsw', hcc]
    simp [get_users, h]

/-- Witness for the amended C1: against the all-rejecting provider, an
ID-prefixed identifier and a cached identifier still resolve without
raising; with empty-but-successful listings both helpers return `.ok` on a
cache miss; and with the rejecting provider the uncached, unprefixed
identifier path raises the listing's `SlackPermissionError`. -/
theorem resolve_helpers_raise_only_on_refresh_failure_witness :
    (pyStartsWith (pyLstrip "C123" '#') "C" ||
      pyStartsWith (pyLstrip "C123" '#') "D" ||
      pyStartsWith (pyLstrip "C123" '#') "G") = true ∧
    resolve_channel errClient initState "C123" "public_channel" =
      .ok (some "C123", initState) ∧
    stNine.channel_cache (pyLstrip "nine" '#') = some chan9 ∧
    resolve_channel errClient stNine "nine" "public_channel" =
      .ok (some "C9", stNine) ∧
    resolve_user errClient initState "U42" = .ok (some "U42", initState) ∧
    stAlice.user_cache (pyLstrip "alice" '@') = some userA ∧
    resolve_user errClient stAlice "alice" = .ok (some "U5", stAlice) ∧
    emptyListClient.conversations_list "public_channel" true 1000 = .ok [] ∧
    emptyListClient.users_list () = .ok [] ∧
    (∃ r st', resolve_channel emptyListClient initState "general"
      "public_channel" = .ok (r, st')) ∧
    (∃ r st', resolve_user emptyListClient initState "alice" = .ok (r, st')) ∧
    errClient.conversations_list "public_channel" true 1000 =
      .error errData0 ∧
    initState.channel_cache (pyLstrip "general" '#') = none ∧
    resolve_channel errClient initState "general" "public_channel" =
      .error (.perm (mkPermError "conversations.list" errData0)) := by
  refine ⟨by decide,
    resolve_helpers_raise_only_on_refresh_failure.1 errClient initState
      "C123" "public_channel" (by decide),
    rfl,
    resolve_helpers_raise_only_on_refresh_failure.2.1 errClient stNine
      "nine" "public_channel" chan9 (by decide) rfl,
    resolve_helpers_raise_only_on_refresh_failure.2.2.2.2.1 errClient
      initState "U42" (by decide),
    rfl,
    resolve_helpers_raise_only_on_refresh_failure.2.2.2.2.2.1 errClient
      stAlice "alice" userA (by decide) rfl,
    rfl, rfl,
    resolve_helpers_raise_only_on_refresh_failure.2.2.1 emptyListClient
      initState "general" "public_channel" [] rfl,
    resolve_helpers_raise_only_on_refresh_failure.2.2.2.2.2.2.1
      emptyListClient initState "alice" [] rfl,
    rfl, rfl,
    resolve_helpers_raise_only_on_refresh_failure.2.2.2.1 errClient initState
      "general" "public_channel" errData0 rfl (by decide) rfl⟩

/-- Counterexample to C2 as stated: on a cache miss where the provider
reports the channel as not-found, `get_channel` does not return absent — it
raises a `SlackPermissionError` carrying the `channel_not_found` code. -/
theorem get_channel_not_found_counterexample :
    notFoundClient.conversations_info "C123" = .error errNotFound ∧
    get_channel notFoundClient initState "C123" =
      .error (.perm ⟨"conversations.info", "channel_not_found", none, none⟩) := by
  exact ⟨rfl, rfl⟩

/-- C2 amended: `get_channel` serves cache hits without touching the
provider, returns the fetched record on provider success, and raises a
`SlackPermissionError` carrying the provider's error code for every provider
failure — not-found included; it never returns absent on a provider error. -/
theorem get_channel_raises_on_every_provider_failure :
    (∀ (client : WebClient) (st : HandlerState) (cid : String) (ch : Channel),
       st.channel_cache cid = some ch →
       get_channel client st cid = .ok (some ch, st)) ∧
    (∀ (client : WebClient) (st : HandlerState) (cid : String) (ch : Channel),
       st.channel_cache cid = none →
       client.conversations_info cid = .ok ch →
       get_channel client st cid =
         .ok (some ch, { st.logCall (.conversationsInfo cid) with
           channel_cache :=
             dictInsert (st.logCall (.conversationsInfo cid)).channel_cache
               cid ch })) ∧
    (∀ (client : WebClient) (st : HandlerState) (cid : String) (d : ErrData),
       st.channel_cache cid = none →
       client.conversations_info cid = .error d →
       get_channel client st cid =
         .error (.perm (mkPermError "conversations.info" d))) := by
  refine ⟨?_, ?_, ?_⟩
  · intro client st cid ch h
    simp [get_channel, h]
  · intro client st cid ch h1 h2
    simp [get_channel, h1, h2]
  · intro client st cid d h1 h2
    simp [get_channel, h1, h2]

/-- Witness for the amended C2: a cache hit, a successful lookup, and a
not-found provider failure that raises with the provider's code. -/
theorem get_channel_raises_on_every_provider_failure_witness :
    st9.channel_cache "C9" = some chan9 ∧
    get_channel infoClient st9 "C9" = .ok (some chan9, st9) ∧
    initState.channel_cache "C7" = none ∧
    infoClient.conversations_info "C7" = .ok chan9 ∧
    get_channel infoClient initState "C7" =
      .ok (some chan9, { initState.logCall (.conversationsInfo "C7") with
        channel_cache :=
          dictInsert (initState.logCall (.conversationsInfo "C7")).channel_cache
            "C7" chan9 }) ∧
    notFoundClient.conversations_info "C123" = .error errNotFound ∧
    get_channel notFoundClient initState "C123" =
      .error (.perm (mkPermError "conversations.info" errNotFound)) := by
  refine ⟨rfl,
    get_channel_raises_on_every_provider_failure.1 infoClient st9 "C9" chan9
      rfl,
    rfl, rfl,
    get_channel_raises_on_every_provider_failure.2.1 infoClient initState
      "C7" chan9 rfl rfl,
    rfl,
    get_channel_raises_on_every_provider_failure.2.2 notFoundClient initState
      "C123" errNotFound rfl rfl⟩

/-- Witness for C3: a rejecting provider makes the listing and history calls
raise with the provider's code while search degrades to the empty sequence;
and a successful empty listing is returned as such, not raised. -/
theorem listing_raises_search_degrades_witness :
    errClient.conversations_list "public_channel" true 1000 =
      .error errData0 ∧
    get_channels errClient initState "public_channel" =
      .error (.perm (mkPermError "conversations.list" errData0)) ∧
    get_messages errClient initState "C1" 20 none =
      .error (.perm (mkPermError "conversations.history" errData0)) ∧
    search_messages errClient initState "q" 20 =
      ([], initState.logCall (.searchMessages "q" 20)) ∧
    (∃ st', get_channels emptyListClient initState "public_channel" =
      .ok ([], st')) := by
  exact ⟨rfl,
    listing_raises_search_degrades.1 errClient initState "public_channel"
      errData0 rfl,
    listing_raises_search_degrades.2.2.1 errClient initState "C1" 20 none
      errData0 rfl,
    listing_raises_search_degrades.2.2.2 errClient initState "q" 20
      errData0 rfl,
    listing_raises_search_degrades.2.1 emptyListClient initState
      "public_channel" [] rfl⟩

/-- Witness for C7: with the empty registry, even a provider that rejects
every call is never consulted and the empty sequence is returned with the
state (call trace included) unchanged. -/
theorem get_vip_messages_empty_registry_no_calls_witness :
    emptySettings.vip_users = [] ∧
    get_vip_messages errClient initState emptySettings 50 =
      .ok ([], initState) :=
  ⟨rfl, get_vip_messages_empty_registry_no_calls errClient initState
    emptySettings 50 rfl⟩
